import Mathlib

/-!
Verification of the football play-by-play narration core of gm-games:
the `PlayByPlayLogger` producer
(`src/football/worker/core/GameSim/PlayByPlayLogger.js`) and the
scoring-summary compressor `processEvents` (box-score view in
`js/util/const.js`).  All definitions are shallow embeddings translated
directly from the JavaScript source; spec-side restatements used for
refinement comparisons are marked as such.
-/

namespace GmGames

/-- Does `needle` occur as a contiguous run inside `hay`? -/
def hasSub (hay needle : List Char) : Bool :=
  match hay with
  | [] => needle.isEmpty
  | _ :: t => needle.isPrefixOf hay || hasSub t needle

/-- JS `s.includes(sub)`: substring containment. -/
def jsIncludes (s sub : String) : Bool :=
  hasSub s.data sub.data

/-- JS `s.toLowerCase()` on the ASCII texts this code produces. -/
def jsToLower (s : String) : String :=
  String.mk (s.data.map Char.toLower)

/-- Input to `processEvents`: one serialized scoring-summary event
(type `ScoringSummaryEvent` in the source). -/
structure SSEvent where
  hide : Bool
  quarter : String
  t : Fin 2
  text : String
  time : String
  deriving DecidableEq

/-- One condensed output row of `processEvents`. -/
structure CRow where
  t : Fin 2
  quarter : String
  time : String
  text : String
  score : Nat × Nat
  scoreType : Option String
  deriving DecidableEq

/-- Read component `t` of the running score (JS `score[event.t]`). -/
def get2 (s : Nat × Nat) (t : Fin 2) : Nat :=
  if t = 0 then s.1 else s.2

/-- Write component `t` of the running score. -/
def set2 (s : Nat × Nat) (t : Fin 2) (v : Nat) : Nat × Nat :=
  if t = 0 then (v, s.2) else (s.1, v)

/-- JS `score[t] += p`. -/
def addPts (s : Nat × Nat) (t : Fin 2) (p : Nat) : Nat × Nat :=
  set2 s t (get2 s t + p)

/-- Lines 157-176 of the view source: assign `scoreType` by literal
phrase matching on the event text and bump the running score. -/
def classifyAndScore (score : Nat × Nat) (e : SSEvent) :
    Option String × (Nat × Nat) :=
  if jsIncludes e.text "extra point" then
    ("XP", if jsIncludes e.text "made" then addPts score e.t 1 else score)
  else if jsIncludes e.text "field goal" then
    ("FG", if jsIncludes e.text "made" then addPts score e.t 3 else score)
  else if jsIncludes e.text "touchdown" then
    ("TD", addPts score e.t 6)
  else if jsIncludes (jsToLower e.text) "two point" then
    ("2P", if jsIncludes e.text "failed" then score else addPts score e.t 2)
  else
    (none, score)

/-- Body of the `for` loop of `processEvents` (lines 152-196): skip
hidden events, classify, then merge into the previous row or push a
new row.  The state is the row list built so far plus the running
score. -/
def processStep (st : List CRow × (Nat × Nat)) (e : SSEvent) :
    List CRow × (Nat × Nat) :=
  if e.hide then st
  else
    let cs := classifyAndScore st.2 e
    let scoreType := cs.1
    let score := cs.2
    match st.1.getLast? with
    | some prevEvent =>
      if scoreType = some "XP" then
        (st.1.dropLast ++
          [{ prevEvent with
              score := score,
              text := prevEvent.text ++ (" (" ++ (e.text ++ ")")) }], score)
      else if scoreType = some "2P" ∧ e.t = prevEvent.t then
        (st.1.dropLast ++
          [{ prevEvent with
              score := score,
              text := prevEvent.text ++ (" (" ++ (e.text ++ ")")) }], score)
      else
        (st.1 ++ [{ t := e.t, quarter := e.quarter, time := e.time,
                    text := e.text, score := score, scoreType := scoreType }],
         score)
    | none =>
      (st.1 ++ [{ t := e.t, quarter := e.quarter, time := e.time,
                  text := e.text, score := score, scoreType := scoreType }],
       score)

/-- `processEvents(events)`: fold of the loop body from the empty row
list and score `[0, 0]`. -/
def processEvents (events : List SSEvent) : List CRow :=
  (events.foldl processStep ([], (0, 0))).1

/-- Spec-side restatement: the score effect a retained event's text
carries (claim C2's phrase-matching rules). -/
def scoreEffectSpec (text : String) : Nat :=
  if jsIncludes text "extra point" then
    (if jsIncludes text "made" then 1 else 0)
  else if jsIncludes text "field goal" then
    (if jsIncludes text "made" then 3 else 0)
  else if jsIncludes text "touchdown" then 6
  else if jsIncludes (jsToLower text) "two point" then
    (if jsIncludes text "failed" then 0 else 2)
  else 0

/-- Spec-side restatement: the score-type label an event's text is
classified as. -/
def scoreTypeSpec (text : String) : Option String :=
  if jsIncludes text "extra point" then some "XP"
  else if jsIncludes text "field goal" then some "FG"
  else if jsIncludes text "touchdown" then some "TD"
  else if jsIncludes (jsToLower text) "two point" then some "2P"
  else none

/-- The merged row written when the loop merges event `e` into the
previous row `p`. -/
def mergedRow (p : CRow) (e : SSEvent) (score : Nat × Nat) : CRow :=
  { p with score := score, text := p.text ++ (" (" ++ (e.text ++ ")")) }

/-- The fresh row pushed when the loop does not merge. -/
def pushedRow (e : SSEvent) (cs : Option String × (Nat × Nat)) : CRow :=
  { t := e.t, quarter := e.quarter, time := e.time, text := e.text,
    score := cs.2, scoreType := cs.1 }

/-- Componentwise order on score pairs. -/
def pairLe (a b : Nat × Nat) : Prop := a.1 ≤ b.1 ∧ a.2 ≤ b.2

/-- Loop invariant: snapshots of the rows built so far, followed by the
running score, are componentwise non-decreasing. -/
def scoreInv (st : List CRow × (Nat × Nat)) : Prop :=
  List.Chain' pairLe (st.1.map (fun r => r.score) ++ [st.2])

/-- The three-event input sequence of claim C9. -/
def exC9 : List SSEvent :=
  [ { hide := false, quarter := "Q1", t := 0,
      text := "rushed for 5 yards", time := "7:30" },
    { hide := false, quarter := "Q1", t := 0,
      text := "rushed for 2 yards and a touchdown!", time := "3:15" },
    { hide := false, quarter := "Q1", t := 0,
      text := "made the extra point", time := "3:15" } ]

/-- The play types handled by `logEvent` (the `if`-chain, lines
111-313). -/
inductive PlayType where
  | injury | quarter | overtime | kickoff | kickoffReturn | punt
  | puntReturn | extraPoint | fieldGoal | fumble | fumbleRecovery
  | interception | sack | dropback | passComplete | passIncomplete
  | handoff | run
  deriving DecidableEq

/-- The destructured `fields` argument of `logEvent`.  Flags that the
source only ever tests for truthiness are plain `Bool` (JS `undefined`
and `false` are indistinguishable there); fields the source compares
against `undefined` are `Option`s. -/
structure LogInput where
  clock : ℚ := 0
  lost : Bool := false
  made : Bool := false
  names : Option (List String) := none
  quarter : Option Nat := none
  safety : Bool := false
  t : Option Nat := none
  td : Option Bool := none
  touchback : Bool := false
  twoPointConversionTeam : Option Nat := none
  yds : Option Int := none
  deriving DecidableEq

/-- The two inhabited values of `this.twoPointConversionState`
(`undefined` is `Option.none`). -/
inductive TPCState where
  | attempting | converted
  deriving DecidableEq

/-- One entry of `this.playByPlay` / `this.scoringSummary` produced by
`logEvent` (always `type: "text"`). -/
structure PBPEvent where
  type : String
  text : String
  t : Option Nat
  time : String
  quarter : String
  deriving DecidableEq

/-- The logger's mutable state. -/
structure Logger where
  active : Bool
  playByPlay : List PBPEvent
  scoringSummary : List PBPEvent
  twoPointConversionState : Option TPCState
  twoPointConversionTeam : Option Nat
  quarter : String
  deriving DecidableEq

/-- The constructor (lines 29-34). -/
def mkLogger (active : Bool) : Logger :=
  { active := active, playByPlay := [], scoringSummary := [],
    twoPointConversionState := none, twoPointConversionTeam := none,
    quarter := "Q1" }

/-- `updateTwoPointConversionState` (lines 36-40). -/
def updateTwoPointConversionState (l : Logger) (td : Bool) : Logger :=
  if td ∧ l.twoPointConversionState = some TPCState.attempting then
    { l with twoPointConversionState := some TPCState.converted }
  else l

/-- The synthesized events appended by the closing arm of the
conversion state machine: one "Two point conversion failed" event when
an attempt is pending and a previous narrated event exists, nothing
otherwise (lines 73-91). -/
def failPart (l : Logger) (f : LogInput) : List PBPEvent :=
  match f.twoPointConversionTeam with
  | some _ => []
  | none =>
    if l.twoPointConversionState = some TPCState.attempting then
      match l.playByPlay.getLast? with
      | some previousEvent =>
        [{ type := "text", text := "Two point conversion failed",
           t := l.twoPointConversionTeam, time := previousEvent.time,
           quarter := l.quarter }]
      | none => []
    else []

/-- The two-point-conversion state machine run at the top of every
`logEvent` call (lines 73-95): an untagged call appends `failPart` to
both logs and clears the state; a tagged call starts an attempt only
when no state is recorded. -/
def closeOrStartConversion (l : Logger) (f : LogInput) : Logger :=
  match f.twoPointConversionTeam with
  | none =>
    { l with
        playByPlay := l.playByPlay ++ failPart l f,
        scoringSummary := l.scoringSummary ++ failPart l f,
        twoPointConversionState := none,
        twoPointConversionTeam := none }
  | some tm =>
    if l.twoPointConversionState = none then
      { l with twoPointConversionState := some TPCState.attempting,
               twoPointConversionTeam := some tm }
    else l

/-- JS `names[i]`; an out-of-range access interpolates as
`"undefined"`. -/
def jsGet (ns : List String) (i : Nat) : String :=
  (ns[i]?).getD "undefined"

/-- JS template interpolation of a possibly-`undefined` number. -/
def showOptInt (y : Option Int) : String :=
  match y with
  | some v => toString v
  | none => "undefined"

/-- `descriptionYdsTD` (lines 6-14). -/
def descriptionYdsTD (yds : Option Int) (td : Bool) (touchdownText : String)
    (showYdsOnTD : Bool) : String :=
  if td && showYdsOnTD then
    showOptInt yds ++ (" yards" ++
      (if td then " and " ++ (touchdownText ++ "!") else ""))
  else if td then touchdownText ++ "!"
  else showOptInt yds ++ " yards"

/-- Modelled from the spec: `helpers.ordinal` lives in
`deion/worker/util`, which is not part of the sources; the spec says
numbered quarters render as ordinals ("<ordinal> <period-name>"). -/
def ordinal (n : Nat) : String :=
  toString n ++
    (if 11 ≤ n % 100 ∧ n % 100 ≤ 13 then "th"
     else if n % 10 = 1 then "st"
     else if n % 10 = 2 then "nd"
     else if n % 10 = 3 then "rd"
     else "th")

/-- `Math.floor(clock)` for the rational embedding of the JS number:
floor division of the numerator by the positive denominator. -/
def jsFloorQ (q : ℚ) : Int := Int.fdiv q.num q.den

/-- Numerator of `clock % 1` (JS remainder truncates toward zero) over
the same denominator. -/
def jsRemNum (q : ℚ) : Int := q.num - Int.tdiv q.num q.den * q.den

/-- Lines 316-324: `sec = Math.floor((clock % 1) * 60)`, zero-padded,
rendered as `"M:SS"`. -/
def formatClock (clock : ℚ) : String :=
  let sec : Int := Int.fdiv (jsRemNum clock * 60) clock.den
  let secStr := if sec < 10 then "0" ++ toString sec else toString sec
  toString (jsFloorQ clock) ++ (":" ++ secStr)

/-- The text-generation `if`-chain (lines 109-313).  Returns the logger
updated by the side effects performed during text generation (the
quarter label and `updateTwoPointConversionState` calls) together with
the rendered text, or the error thrown on a missing required field. -/
def genText (l : Logger) (ty : PlayType) (f : LogInput) :
    Logger × Except String String :=
  let touchdownText :=
    match f.twoPointConversionTeam with
    | none => "a touchdown"
    | some tm =>
      if f.t = some tm then "a two point conversion" else "two points"
  let showYdsOnTD :=
    match f.twoPointConversionTeam with
    | none => true
    | some tm => if f.t = some tm then false else true
  let td := f.td.getD false
  match ty with
  | PlayType.injury =>
    match f.names with
    | none => (l, Except.error "Missing names")
    | some ns => (l, Except.ok (jsGet ns 0 ++ " was injured!"))
  | PlayType.quarter =>
    match f.quarter with
    | none => (l, Except.error "Missing quarter")
    | some q =>
      ({ l with quarter := "Q" ++ toString q },
       Except.ok ("Start of " ++ (ordinal q ++ " quarter")))
  | PlayType.overtime =>
    ({ l with quarter := "OT" }, Except.ok "Start of overtime")
  | PlayType.kickoff =>
    match f.names with
    | none => (l, Except.error "Missing names")
    | some ns =>
      match f.yds with
      | none => (l, Except.error "Missing yds")
      | some y =>
        (l, Except.ok (jsGet ns 0 ++ (" kicked off" ++
          (if f.touchback then " for a touchback"
           else if y < 0 then " into the end zone"
           else " to the " ++ (toString y ++ " yard line")))))
  | PlayType.kickoffReturn =>
    match f.names with
    | none => (l, Except.error "Missing names")
    | some ns =>
      match f.yds with
      | none => (l, Except.error "Missing yds")
      | some y =>
        (l, Except.ok (jsGet ns 0 ++ (" returned the kickoff " ++
          (toString y ++ (" yards" ++
            (if td then " for a touchdown!" else ""))))))
  | PlayType.punt =>
    match f.names with
    | none => (l, Except.error "Missing names")
    | some ns =>
      match f.yds with
      | none => (l, Except.error "Missing yds")
      | some y =>
        (l, Except.ok (jsGet ns 0 ++ (" punted " ++
          (if f.touchback then "for a touchback"
           else if y < 0 then "into the end zone"
           else "to the " ++ (toString y ++ " yard line")))))
  | PlayType.puntReturn =>
    match f.names with
    | none => (l, Except.error "Missing names")
    | some ns =>
      match f.yds with
      | none => (l, Except.error "Missing yds")
      | some y =>
        (l, Except.ok (jsGet ns 0 ++ (" returned the punt " ++
          (toString y ++ (" yards" ++
            (if td then " for a touchdown!" else ""))))))
  | PlayType.extraPoint =>
    match f.names with
    | none => (l, Except.error "Missing names")
    | some ns =>
      (l, Except.ok (jsGet ns 0 ++ (" " ++
        ((if f.made then "made" else "missed") ++ " the extra point"))))
  | PlayType.fieldGoal =>
    match f.names with
    | none => (l, Except.error "Missing names")
    | some ns =>
      match f.yds with
      | none => (l, Except.error "Missing yds")
      | some y =>
        (l, Except.ok (jsGet ns 0 ++ (" " ++
          ((if f.made then "made" else "missed") ++
            (" a " ++ (toString y ++ " yard field goal"))))))
  | PlayType.fumble =>
    match f.names with
    | none => (l, Except.error "Missing names")
    | some ns => (l, Except.ok (jsGet ns 0 ++ " fumbled the ball!"))
  | PlayType.fumbleRecovery =>
    match f.names with
    | none => (l, Except.error "Missing names")
    | some ns =>
      match f.td with
      | none => (l, Except.error "Missing td")
      | some _ =>
        match f.yds with
        | none => (l, Except.error "Missing yds")
        | some y =>
          if f.safety || f.touchback then
            (l, Except.ok (jsGet ns 0 ++
              (" recovered the fumble in the endzone, resulting in a " ++
                (if f.safety then "safety!" else "touchback"))))
          else if f.lost then
            (updateTwoPointConversionState l td,
             Except.ok (jsGet ns 0 ++
              (" recovered the fumble for the defense " ++
                (if td && y < 1 then
                  "in the endzone for " ++ (touchdownText ++ "!")
                 else "and returned it " ++ (toString y ++ (" yards" ++
                   (if td then " for " ++ (touchdownText ++ "!")
                    else "")))))))
          else
            (updateTwoPointConversionState l td,
             Except.ok (jsGet ns 0 ++
              (" recovered the fumble for the offense" ++
                (if td then
                  " and carried it into the endzone for " ++
                    (touchdownText ++ "!")
                 else ""))))
  | PlayType.interception =>
    match f.names with
    | none => (l, Except.error "Missing names")
    | some ns =>
      match f.td with
      | none => (l, Except.error "Missing td")
      | some _ =>
        match f.yds with
        | none => (l, Except.error "Missing yds")
        | some y =>
          (updateTwoPointConversionState l td,
           Except.ok (jsGet ns 0 ++
            (" intercepted the pass and returned it " ++
              (toString y ++ (" yards" ++
                (if td then " for " ++ (touchdownText ++ "!") else ""))))))
  | PlayType.sack =>
    match f.names with
    | none => (l, Except.error "Missing names")
    | some ns =>
      match f.yds with
      | none => (l, Except.error "Missing yds")
      | some y =>
        (l, Except.ok (jsGet ns 0 ++ (" was sacked by " ++
          (jsGet ns 1 ++ (" for a " ++
            (if f.safety then "safety!"
             else toString y ++ " yard loss"))))))
  | PlayType.dropback =>
    match f.names with
    | none => (l, Except.error "Missing names")
    | some ns => (l, Except.ok (jsGet ns 0 ++ " drops back to pass"))
  | PlayType.passComplete =>
    match f.names with
    | none => (l, Except.error "Missing names")
    | some ns =>
      match f.td with
      | none => (l, Except.error "Missing td")
      | some _ =>
        if f.safety then
          (l, Except.ok (jsGet ns 0 ++ (" completed a pass to " ++
            (jsGet ns 1 ++
              " but he was tackled in the endzone for a safety!"))))
        else
          (updateTwoPointConversionState l td,
           Except.ok (jsGet ns 0 ++ (" completed a pass to " ++
            (jsGet ns 1 ++ (" for " ++
              descriptionYdsTD f.yds td touchdownText showYdsOnTD)))))
  | PlayType.passIncomplete =>
    match f.names with
    | none => (l, Except.error "Missing names")
    | some ns => (l, Except.ok ("Incomplete pass to " ++ jsGet ns 1))
  | PlayType.handoff =>
    match f.names with
    | none => (l, Except.error "Missing names")
    | some ns =>
      (l, Except.ok (jsGet ns 0 ++
        (" hands the ball off to " ++ jsGet ns 1)))
  | PlayType.run =>
    match f.names with
    | none => (l, Except.error "Missing names")
    | some ns =>
      match f.td with
      | none => (l, Except.error "Missing td")
      | some _ =>
        if f.safety then
          (l, Except.ok (jsGet ns 0 ++
            " was tackled in the endzone for a safety!"))
        else
          (updateTwoPointConversionState l td,
           Except.ok (jsGet ns 0 ++ (" rushed for " ++
             descriptionYdsTD f.yds td touchdownText showYdsOnTD)))

/-- The scoring-summary condition of lines 330-335:
`safety || td || type === "extraPoint" || (made && type === "fieldGoal")`. -/
def scoringCond (ty : PlayType) (f : LogInput) : Bool :=
  f.safety || f.td.getD false || (ty = PlayType.extraPoint : Bool) ||
    (f.made && (ty = PlayType.fieldGoal : Bool))

/-- `logEvent` (lines 42-342): run the conversion state machine, render
the text, then push the narrated event and conditionally the scoring
entry.  The returned `Option String` carries the thrown error, if any;
state mutated before a throw persists, as in the JS original. -/
def logEvent (l : Logger) (ty : PlayType) (f : LogInput) :
    Logger × Option String :=
  let l1 := closeOrStartConversion l f
  let g := genText l1 ty f
  match g.2 with
  | Except.error e => (g.1, some e)
  | Except.ok text =>
    if text = "" then
      (g.1, some "No text for play type")
    else
      let event : PBPEvent :=
        { type := "text", text := text, t := f.t,
          time := formatClock f.clock, quarter := g.1.quarter }
      let l3 := { g.1 with playByPlay := g.1.playByPlay ++ [event] }
      let l4 :=
        if scoringCond ty f then
          { l3 with scoringSummary := l3.scoringSummary ++ [event] }
        else l3
      (l4, none)

/-- A sequence of `logEvent` calls, stopping at the first thrown
error. -/
def runLog (calls : List (PlayType × LogInput)) (l : Logger) :
    Logger × Option String :=
  match calls with
  | [] => (l, none)
  | c :: cs =>
    let r := logEvent l c.1 c.2
    match r.2 with
    | some e => (r.1, some e)
    | none => runLog cs r.1

/-- A required field for the given event type is absent (the conditions
of the `throw new Error` statements of lines 112-298). -/
def requiredMissing (ty : PlayType) (f : LogInput) : Bool :=
  match ty with
  | PlayType.injury => f.names.isNone
  | PlayType.quarter => f.quarter.isNone
  | PlayType.overtime => false
  | PlayType.kickoff => f.names.isNone || f.yds.isNone
  | PlayType.kickoffReturn => f.names.isNone || f.yds.isNone
  | PlayType.punt => f.names.isNone || f.yds.isNone
  | PlayType.puntReturn => f.names.isNone || f.yds.isNone
  | PlayType.extraPoint => f.names.isNone
  | PlayType.fieldGoal => f.names.isNone || f.yds.isNone
  | PlayType.fumble => f.names.isNone
  | PlayType.fumbleRecovery => f.names.isNone || f.td.isNone || f.yds.isNone
  | PlayType.interception => f.names.isNone || f.td.isNone || f.yds.isNone
  | PlayType.sack => f.names.isNone || f.yds.isNone
  | PlayType.dropback => f.names.isNone
  | PlayType.passComplete => f.names.isNone || f.td.isNone
  | PlayType.passIncomplete => f.names.isNone
  | PlayType.handoff => f.names.isNone
  | PlayType.run => f.names.isNone || f.td.isNone

/-- The event kinds whose non-safety branches call
`updateTwoPointConversionState` with a true touchdown flag: these are
the calls that can mark a pending attempt converted. -/
def resolvesTd (ty : PlayType) (f : LogInput) : Bool :=
  f.td.getD false &&
    match ty with
    | PlayType.interception => true
    | PlayType.fumbleRecovery => !(f.safety || f.touchback)
    | PlayType.passComplete => !f.safety
    | PlayType.run => !f.safety
    | _ => false

/-- Did text generation throw? -/
def isErr (r : Except String String) : Bool :=
  match r with
  | Except.error _ => true
  | Except.ok _ => false

/-- Invariant along successful runs: while an attempt is pending the
attempting team is recorded and at least one event has been narrated,
and the last narrated event's quarter label is the logger's current
quarter label. -/
def LoggerInv (L : Logger) : Prop :=
  (L.twoPointConversionState = some TPCState.attempting →
    (∃ X, L.twoPointConversionTeam = some X) ∧ L.playByPlay ≠ []) ∧
  (∀ prev, L.playByPlay.getLast? = some prev → prev.quarter = L.quarter)

/-- The concrete overlapping-tag sequence: an attempt by team 0, a
second tag by team 1 before resolution, then an untagged closing
call. -/
def exC6 : List (PlayType × LogInput) :=
  [ (PlayType.run,
     { clock := 10, names := some ["Alpha"], td := some false,
       yds := some 1, t := some 0, twoPointConversionTeam := some 0 }),
    (PlayType.run,
     { clock := 10, names := some ["Beta"], td := some false,
       yds := some 1, t := some 1, twoPointConversionTeam := some 1 }),
    (PlayType.kickoff,
     { clock := 9, names := some ["Gamma"], yds := some 20,
       t := some 1 }) ]

/-- The logger state after a pending attempt by team 0 has been
started. -/
def exC6L : Logger :=
  (runLog
    [ (PlayType.run,
       { clock := 10, names := some ["Alpha"], td := some false,
         yds := some 1, t := some 0,
         twoPointConversionTeam := some 0 }) ]
    (mkLogger true)).1

/-- The logger state with a pending attempt by team 0. -/
def exC7L : Logger :=
  (runLog
    [ (PlayType.run,
       { clock := 10, names := some ["Alpha"], td := some false,
         yds := some 1, t := some 0,
         twoPointConversionTeam := some 0 }) ]
    (mkLogger true)).1

/-- A one-call history starting a two-point attempt by team 0. -/
def exC1calls : List (PlayType × LogInput) :=
  [ (PlayType.run,
     { clock := 15, names := some ["Alpha"], td := some false,
       yds := some 1, t := some 0, twoPointConversionTeam := some 0 }) ]

/-- The logger with that pending attempt. -/
def exC1L : Logger := (runLog exC1calls (mkLogger true)).1

/-- The untagged closing call used in the witness. -/
def exC1f : LogInput := { clock := 9, names := some ["QB"] }

/-- A tagged punt return with a touchdown, then an untagged kickoff. -/
def exC1cx : List (PlayType × LogInput) :=
  [ (PlayType.puntReturn,
     { clock := 10, names := some ["Alpha"], yds := some 2,
       td := some true, t := some 0,
       twoPointConversionTeam := some 0 }),
    (PlayType.kickoff,
     { clock := 9, names := some ["Beta"], yds := some 20,
       t := some 1 }) ]

/-! ## Theorems -/

/-- `(a ++ b).data` unfolds to the concatenation of the char lists. -/
theorem data_append (a b : String) : (a ++ b).data = a.data ++ b.data := rfl

theorem mem_data_append_left {a : String} (b : String) {c : Char}
    (h : c ∈ a.data) : c ∈ (a ++ b).data := by
  rw [data_append]; exact List.mem_append_left _ h

theorem mem_data_append_right (a : String) {b : String} {c : Char}
    (h : c ∈ b.data) : c ∈ (a ++ b).data := by
  rw [data_append]; exact List.mem_append_right _ h

theorem str_ne_of_mem_not_mem {s t : String} {c : Char}
    (hc : c ∈ s.data) (hn : c ∉ t.data) : s ≠ t :=
  fun h => hn (h ▸ hc)

theorem str_ne_empty_of_mem {s : String} {c : Char}
    (hc : c ∈ s.data) : s ≠ "" := by
  intro h
  rw [h] at hc
  simp [String.data] at hc

theorem set2_get2 (s : Nat × Nat) (t : Fin 2) : set2 s t (get2 s t) = s := by
  unfold set2 get2
  split <;> rfl

theorem addPts_zero (s : Nat × Nat) (t : Fin 2) : addPts s t 0 = s := by
  unfold addPts
  rw [Nat.add_zero, set2_get2]

/-- The source's interleaved classification agrees with the two
spec-side functions. -/
theorem classifyAndScore_eq (s : Nat × Nat) (e : SSEvent) :
    classifyAndScore s e =
      (scoreTypeSpec e.text, addPts s e.t (scoreEffectSpec e.text)) := by
  unfold classifyAndScore scoreTypeSpec scoreEffectSpec
  split_ifs <;> simp [addPts_zero]

theorem get2_addPts_self (s : Nat × Nat) (t : Fin 2) (p : Nat) :
    get2 (addPts s t p) t = get2 s t + p := by
  unfold addPts set2 get2
  split <;> simp

theorem get2_addPts_other (s : Nat × Nat) (t j : Fin 2) (p : Nat)
    (h : j ≠ t) : get2 (addPts s t p) j = get2 s j := by
  fin_cases t <;> fin_cases j <;> simp_all [addPts, set2, get2]

/-- For a non-hidden event the loop's resulting running score is the
classification result. -/
theorem processStep_snd (st : List CRow × (Nat × Nat)) (e : SSEvent)
    (h : e.hide = false) :
    (processStep st e).2 = (classifyAndScore st.2 e).2 := by
  unfold processStep
  rw [h]
  simp only [Bool.false_eq_true, if_false]
  cases hl : st.1.getLast? <;> dsimp only
  all_goals first
    | rfl
    | (split_ifs <;> rfl)

theorem processStep_merge (st : List CRow × (Nat × Nat)) (e : SSEvent)
    (p : CRow) (h : e.hide = false) (hl : st.1.getLast? = some p)
    (hm : (classifyAndScore st.2 e).1 = some "XP" ∨
      ((classifyAndScore st.2 e).1 = some "2P" ∧ e.t = p.t)) :
    processStep st e =
      (st.1.dropLast ++ [mergedRow p e (classifyAndScore st.2 e).2],
       (classifyAndScore st.2 e).2) := by
  unfold processStep
  rw [h]
  simp only [Bool.false_eq_true, if_false]
  rw [hl]
  dsimp only
  rcases hm with hxp | ⟨h2p, ht⟩
  · rw [if_pos hxp]
    rfl
  · split_ifs with h1 h2
    · rfl
    · rfl
    · exact absurd ⟨h2p, ht⟩ h2

theorem processStep_push (st : List CRow × (Nat × Nat)) (e : SSEvent)
    (h : e.hide = false)
    (hnm : ∀ p, st.1.getLast? = some p →
      ¬((classifyAndScore st.2 e).1 = some "XP" ∨
        ((classifyAndScore st.2 e).1 = some "2P" ∧ e.t = p.t))) :
    processStep st e =
      (st.1 ++ [pushedRow e (classifyAndScore st.2 e)],
       (classifyAndScore st.2 e).2) := by
  unfold processStep
  rw [h]
  simp only [Bool.false_eq_true, if_false]
  cases hl : st.1.getLast? <;> dsimp only
  all_goals try rfl
  case some p =>
    have := hnm p hl
    split_ifs with h1 h2
    · exact absurd (Or.inl h1) this
    · exact absurd (Or.inr h2) this
    · rfl

/-- Rows other than the last one are never touched by a loop
iteration. -/
theorem processStep_stable (st : List CRow × (Nat × Nat)) (e : SSEvent)
    (i : Nat) (hi : i + 1 < st.1.length) :
    (processStep st e).1[i]? = st.1[i]? := by
  unfold processStep
  split
  · rfl
  · have hlen : st.1.dropLast.length = st.1.length - 1 :=
      List.length_dropLast st.1
    have hdrop : st.1.dropLast[i]? = st.1[i]? := by
      rw [List.getElem?_dropLast, if_pos (by omega)]
    cases hl : st.1.getLast? <;> dsimp only
    all_goals first
      | rw [List.getElem?_append_left (by omega)]
      | (split_ifs <;> rw [List.getElem?_append_left (by omega)] <;>
          first
            | rfl
            | rw [hdrop])

theorem pairLe_refl (a : Nat × Nat) : pairLe a a := ⟨le_refl _, le_refl _⟩

theorem pairLe_trans {a b c : Nat × Nat} (h1 : pairLe a b) (h2 : pairLe b c) :
    pairLe a c := ⟨h1.1.trans h2.1, h1.2.trans h2.2⟩

theorem pairLe_addPts (s : Nat × Nat) (t : Fin 2) (p : Nat) :
    pairLe s (addPts s t p) := by
  unfold addPts set2 get2
  split <;> exact ⟨by omega, by omega⟩

theorem pairLe_classifyAndScore (s : Nat × Nat) (e : SSEvent) :
    pairLe s (classifyAndScore s e).2 := by
  rw [classifyAndScore_eq]
  exact pairLe_addPts s e.t _

theorem chain_snoc_upd {l : List (Nat × Nat)} {a b : Nat × Nat}
    (h : List.Chain' pairLe (l ++ [a])) (hab : pairLe a b) :
    List.Chain' pairLe (l ++ [b, b]) := by
  rw [List.chain'_append] at h ⊢
  obtain ⟨h1, _, h3⟩ := h
  refine ⟨h1, ?_, ?_⟩
  · exact List.chain'_cons.2 ⟨pairLe_refl b, List.chain'_singleton b⟩
  · intro x hx y hy
    simp only [List.head?_cons, Option.mem_def, Option.some.injEq] at hy
    subst hy
    exact pairLe_trans (h3 x hx a (by simp)) hab

theorem chain_replace_two {l : List (Nat × Nat)} {x y b : Nat × Nat}
    (h : List.Chain' pairLe (l ++ [x, y])) (hyb : pairLe y b) :
    List.Chain' pairLe (l ++ [b, b]) := by
  rw [List.chain'_append] at h ⊢
  obtain ⟨h1, h2, h3⟩ := h
  have hxy : pairLe x y := (List.chain'_cons.1 h2).1
  refine ⟨h1, ?_, ?_⟩
  · exact List.chain'_cons.2 ⟨pairLe_refl b, List.chain'_singleton b⟩
  · intro u hu v hv
    simp only [List.head?_cons, Option.mem_def, Option.some.injEq] at hv
    subst hv
    exact pairLe_trans (h3 u hu x (by simp)) (pairLe_trans hxy hyb)

theorem scoreInv_step (st : List CRow × (Nat × Nat)) (e : SSEvent)
    (h : scoreInv st) : scoreInv (processStep st e) := by
  by_cases hh : e.hide = true
  · unfold processStep
    rw [hh]
    simp only [if_true]
    exact h
  · have hh' : e.hide = false := by
      cases hhe : e.hide
      · rfl
      · exact absurd hhe hh
    have hmono := pairLe_classifyAndScore st.2 e
    cases hl : st.1.getLast? with
    | none =>
      have hnil : st.1 = [] := by
        cases hsl : st.1 with
        | nil => rfl
        | cons a as =>
          rw [hsl] at hl
          simp [List.getLast?_concat, List.getLast?] at hl
      rw [processStep_push st e hh' (fun p hp => by rw [hl] at hp; cases hp)]
      unfold scoreInv at h ⊢
      rw [hnil] at h ⊢
      simpa using @chain_snoc_upd [] _ _ (by simp) hmono
    | some p =>
      by_cases hm : (classifyAndScore st.2 e).1 = some "XP" ∨
          ((classifyAndScore st.2 e).1 = some "2P" ∧ e.t = p.t)
      · rw [processStep_merge st e p hh' hl hm]
        unfold scoreInv at h ⊢
        have hsplit : st.1.dropLast ++ [p] = st.1 :=
          List.dropLast_append_getLast? p hl
        rw [← hsplit] at h
        simp only [List.map_append, List.map_cons, List.map_nil,
          List.append_assoc, List.cons_append, List.nil_append] at h ⊢
        exact chain_replace_two (by simpa using h) hmono
      · have hnm : ∀ q, st.1.getLast? = some q →
            ¬((classifyAndScore st.2 e).1 = some "XP" ∨
              ((classifyAndScore st.2 e).1 = some "2P" ∧ e.t = q.t)) := by
          intro q hq
          rw [hl] at hq
          cases hq
          exact hm
        rw [processStep_push st e hh' hnm]
        unfold scoreInv at h ⊢
        simp only [List.map_append, List.map_cons, List.map_nil,
          List.append_assoc, List.cons_append, List.nil_append] at h ⊢
        exact chain_snoc_upd (by simpa using h) hmono

theorem scoreInv_foldl (evs : List SSEvent) (st : List CRow × (Nat × Nat))
    (h : scoreInv st) : scoreInv (evs.foldl processStep st) := by
  induction evs generalizing st with
  | nil => exact h
  | cons e rest ih => exact ih _ (scoreInv_step st e h)

theorem processEvents_chain (events : List SSEvent) :
    List.Chain' (fun a b : CRow => pairLe a.score b.score)
      (processEvents events) := by
  have h0 : scoreInv ([], (0, 0)) := by
    unfold scoreInv
    simp
  have h := scoreInv_foldl events _ h0
  unfold scoreInv at h
  have hpre : List.Chain' pairLe
      ((events.foldl processStep ([], (0, 0))).1.map (fun r => r.score)) :=
    List.Chain'.prefix h ⟨_, rfl⟩
  exact (List.chain'_map (fun r : CRow => r.score)).1 hpre

theorem classify_fst (s : Nat × Nat) (e : SSEvent) :
    (classifyAndScore s e).1 = scoreTypeSpec e.text := by
  rw [classifyAndScore_eq]

/-- Claim C2: for every non-hidden input event, `processEvents` derives the
event's score effect solely from its text: "extra point" scores +1 iff the
text also contains "made"; else "field goal" scores +3 iff it contains
"made"; else "touchdown" always scores +6; else a case-insensitive
"two point" match scores +2 iff the text does not contain "failed"; any
other text scores 0.  The effect is credited to the event's own side and
the other side is unchanged. -/
theorem processEvents_score_effect_spec (st : List CRow × (Nat × Nat))
    (e : SSEvent) (h : e.hide = false) :
    get2 (processStep st e).2 e.t = get2 st.2 e.t + scoreEffectSpec e.text ∧
    ∀ j : Fin 2, j ≠ e.t → get2 (processStep st e).2 j = get2 st.2 j := by
  rw [processStep_snd st e h, classifyAndScore_eq]
  exact ⟨get2_addPts_self _ _ _, fun j hj => get2_addPts_other _ _ _ _ hj⟩

/-- Witness for C2 at a concrete made-extra-point event. -/
theorem processEvents_score_effect_spec_witness :
    get2 (processStep ([], (3, 0))
      { hide := false, quarter := "Q1", t := 0,
        text := "made the extra point", time := "1:00" }).2 0 =
      get2 (3, 0) 0 +
        scoreEffectSpec "made the extra point" ∧
    get2 (processStep ([], (3, 0))
      { hide := false, quarter := "Q1", t := 0,
        text := "made the extra point", time := "1:00" }).2 1 =
      get2 (3, 0) 1 :=
  ⟨(processEvents_score_effect_spec ([], (3, 0)) _ rfl).1,
   (processEvents_score_effect_spec ([], (3, 0)) _ rfl).2 1 (by decide)⟩

/-- Claim C3: if a previous row exists and the event classifies as an
extra point, it is merged into that row (text appended in parentheses,
snapshot overwritten with the updated running score) regardless of side;
if a previous row exists, the event classifies as a two-point conversion
and its side equals the previous row's side, it is merged identically;
in every other case a new row is pushed whose snapshot is the value of
the running score after the event, and rows other than the last are
never modified by an iteration. -/
theorem processEvents_merge_rule_spec (st : List CRow × (Nat × Nat))
    (e : SSEvent) (h : e.hide = false) :
    (∀ p, st.1.getLast? = some p → scoreTypeSpec e.text = some "XP" →
       (processStep st e).1 =
         st.1.dropLast ++ [mergedRow p e (processStep st e).2]) ∧
    (∀ p, st.1.getLast? = some p → scoreTypeSpec e.text = some "2P" →
       e.t = p.t →
       (processStep st e).1 =
         st.1.dropLast ++ [mergedRow p e (processStep st e).2]) ∧
    ((st.1 = [] ∨ ∃ p, st.1.getLast? = some p ∧
        scoreTypeSpec e.text ≠ some "XP" ∧
        ¬(scoreTypeSpec e.text = some "2P" ∧ e.t = p.t)) →
       (processStep st e).1 =
         st.1 ++ [pushedRow e (scoreTypeSpec e.text, (processStep st e).2)]) ∧
    (∀ i : Nat, i + 1 < st.1.length → (processStep st e).1[i]? = st.1[i]?) := by
  have hsnd := processStep_snd st e h
  refine ⟨?_, ?_, ?_, fun i hi => processStep_stable st e i hi⟩
  · intro p hl hx
    rw [processStep_merge st e p h hl (Or.inl ((classify_fst st.2 e).trans hx))]
  · intro p hl hx ht
    rw [processStep_merge st e p h hl
      (Or.inr ⟨(classify_fst st.2 e).trans hx, ht⟩)]
  · intro hcase
    have hnm : ∀ p, st.1.getLast? = some p →
        ¬((classifyAndScore st.2 e).1 = some "XP" ∨
          ((classifyAndScore st.2 e).1 = some "2P" ∧ e.t = p.t)) := by
      intro p hp
      rcases hcase with hnil | ⟨q, hq, hq1, hq2⟩
      · rw [hnil] at hp
        cases hp
      · rw [hp] at hq
        cases hq
        rw [classify_fst st.2 e]
        rintro (h1 | h2)
        · exact hq1 h1
        · exact hq2 h2
    rw [processStep_push st e h hnm]
    dsimp only
    rw [classifyAndScore_eq]

/-- Witness for C3 at a concrete touchdown row followed by its extra
point. -/
theorem processEvents_merge_rule_spec_witness :
    (processStep
        ([{ t := 0, quarter := "Q1", time := "3:15",
            text := "rushed for 2 yards and a touchdown!",
            score := (6, 0), scoreType := some "TD" }], (6, 0))
        { hide := false, quarter := "Q1", t := 0,
          text := "made the extra point", time := "3:15" }).1 =
      [mergedRow
        { t := 0, quarter := "Q1", time := "3:15",
          text := "rushed for 2 yards and a touchdown!",
          score := (6, 0), scoreType := some "TD" }
        { hide := false, quarter := "Q1", t := 0,
          text := "made the extra point", time := "3:15" }
        (processStep
          ([{ t := 0, quarter := "Q1", time := "3:15",
              text := "rushed for 2 yards and a touchdown!",
              score := (6, 0), scoreType := some "TD" }], (6, 0))
          { hide := false, quarter := "Q1", t := 0,
            text := "made the extra point", time := "3:15" }).2] :=
  (processEvents_merge_rule_spec _ _ rfl).1 _ rfl (by decide)

/-- Claim C8: in the returned row sequence both components of every
snapshot are non-decreasing from each row to the next, and an event
classified as an extra point (previous row present), or as a two-point
conversion from the same side as the previous row, never pushes a new
row: it is merged into the previous one. -/
theorem processEvents_snapshots_monotone (events : List SSEvent) :
    List.Chain'
      (fun a b : CRow => a.score.1 ≤ b.score.1 ∧ a.score.2 ≤ b.score.2)
      (processEvents events) ∧
    (∀ (st : List CRow × (Nat × Nat)) (e : SSEvent) (p : CRow),
      e.hide = false → st.1.getLast? = some p →
      (scoreTypeSpec e.text = some "XP" ∨
        (scoreTypeSpec e.text = some "2P" ∧ e.t = p.t)) →
      (processStep st e).1.length = st.1.length ∧
        (processStep st e).1.dropLast = st.1.dropLast) := by
  refine ⟨processEvents_chain events, ?_⟩
  intro st e p hh hl hm
  have hm' : (classifyAndScore st.2 e).1 = some "XP" ∨
      ((classifyAndScore st.2 e).1 = some "2P" ∧ e.t = p.t) := by
    rw [classify_fst st.2 e]
    exact hm
  rw [processStep_merge st e p hh hl hm']
  have hne : st.1 ≠ [] := by
    intro hnil
    rw [hnil] at hl
    cases hl
  constructor
  · show (st.1.dropLast ++ [_]).length = st.1.length
    rw [List.length_append, List.length_dropLast]
    have := List.length_pos.2 hne
    simp
    omega
  · show (st.1.dropLast ++ [_]).dropLast = st.1.dropLast
    rw [List.dropLast_concat]

/-- Witness for C8: the monotone chain on a concrete run, and one
concrete merged step. -/
theorem processEvents_snapshots_monotone_witness :
    List.Chain'
      (fun a b : CRow => a.score.1 ≤ b.score.1 ∧ a.score.2 ≤ b.score.2)
      (processEvents
        [{ hide := false, quarter := "Q1", t := 0,
           text := "rushed for 2 yards and a touchdown!", time := "3:15" },
         { hide := false, quarter := "Q1", t := 1,
           text := "made a 23 yard field goal", time := "2:00" }]) ∧
    (processStep
        ([{ t := 0, quarter := "Q1", time := "3:15",
            text := "rushed for 2 yards and a touchdown!",
            score := (6, 0), scoreType := some "TD" }], (6, 0))
        { hide := false, quarter := "Q1", t := 0,
          text := "made the extra point", time := "3:15" }).1.length = 1 :=
  ⟨(processEvents_snapshots_monotone _).1,
   ((processEvents_snapshots_monotone []).2
     ([{ t := 0, quarter := "Q1", time := "3:15",
         text := "rushed for 2 yards and a touchdown!",
         score := (6, 0), scoreType := some "TD" }], (6, 0))
     { hide := false, quarter := "Q1", t := 0,
       text := "made the extra point", time := "3:15" }
     { t := 0, quarter := "Q1", time := "3:15",
       text := "rushed for 2 yards and a touchdown!",
       score := (6, 0), scoreType := some "TD" }
     rfl rfl (Or.inl (by decide))).1⟩

/-- Claim C10: when an extra-point or same-side two-point event is merged
into the previous row, only that row's `score` and `text` change: its
side, quarter, time and score type keep the values of the row's original
event, and the earlier rows are untouched. -/
theorem processStep_merge_keeps_fields (st : List CRow × (Nat × Nat))
    (e : SSEvent) (p : CRow) (h : e.hide = false)
    (hl : st.1.getLast? = some p)
    (hm : scoreTypeSpec e.text = some "XP" ∨
      (scoreTypeSpec e.text = some "2P" ∧ e.t = p.t)) :
    ∃ q, (processStep st e).1.getLast? = some q ∧
      q.t = p.t ∧ q.quarter = p.quarter ∧ q.time = p.time ∧
      q.scoreType = p.scoreType ∧
      q.text = p.text ++ (" (" ++ (e.text ++ ")")) ∧
      q.score = (processStep st e).2 ∧
      (processStep st e).1.dropLast = st.1.dropLast := by
  have hm' : (classifyAndScore st.2 e).1 = some "XP" ∨
      ((classifyAndScore st.2 e).1 = some "2P" ∧ e.t = p.t) := by
    rw [classify_fst st.2 e]
    exact hm
  rw [processStep_merge st e p h hl hm']
  refine ⟨mergedRow p e (classifyAndScore st.2 e).2, ?_, rfl, rfl, rfl, rfl,
    rfl, rfl, ?_⟩
  · show (st.1.dropLast ++ [_]).getLast? = _
    rw [List.getLast?_concat]
  · show (st.1.dropLast ++ [_]).dropLast = st.1.dropLast
    rw [List.dropLast_concat]

/-- Witness for C10 at a concrete touchdown row merged with its extra
point. -/
theorem processStep_merge_keeps_fields_witness :
    ∃ q, (processStep
        ([{ t := 0, quarter := "Q1", time := "3:15",
            text := "rushed for 2 yards and a touchdown!",
            score := (6, 0), scoreType := some "TD" }], (6, 0))
        { hide := false, quarter := "Q2", t := 1,
          text := "made the extra point", time := "1:00" }).1.getLast? =
        some q ∧
      q.t = (0 : Fin 2) ∧ q.quarter = "Q1" ∧ q.time = "3:15" ∧
      q.scoreType = some "TD" ∧
      q.text = "rushed for 2 yards and a touchdown!" ++
        (" (" ++ ("made the extra point" ++ ")")) ∧
      q.score = (processStep
        ([{ t := 0, quarter := "Q1", time := "3:15",
            text := "rushed for 2 yards and a touchdown!",
            score := (6, 0), scoreType := some "TD" }], (6, 0))
        { hide := false, quarter := "Q2", t := 1,
          text := "made the extra point", time := "1:00" }).2 ∧
      (processStep
        ([{ t := 0, quarter := "Q1", time := "3:15",
            text := "rushed for 2 yards and a touchdown!",
            score := (6, 0), scoreType := some "TD" }], (6, 0))
        { hide := false, quarter := "Q2", t := 1,
          text := "made the extra point", time := "1:00" }).1.dropLast =
        [] :=
  processStep_merge_keeps_fields
    ([{ t := 0, quarter := "Q1", time := "3:15",
        text := "rushed for 2 yards and a touchdown!",
        score := (6, 0), scoreType := some "TD" }], (6, 0))
    { hide := false, quarter := "Q2", t := 1,
      text := "made the extra point", time := "1:00" }
    { t := 0, quarter := "Q1", time := "3:15",
      text := "rushed for 2 yards and a touchdown!",
      score := (6, 0), scoreType := some "TD" }
    rfl rfl (Or.inl (by decide))

/-- Counterexample to claim C9 as stated: the sequence does not compress
to exactly one row; the non-scoring first event forms its own row, so two
rows are returned. -/
theorem processEvents_exC9_two_rows : (processEvents exC9).length = 2 := by
  decide

/-- Amended claim C9: the sequence compresses to exactly two rows; the
first carries the non-scoring rush text with snapshot `[0, 0]`, and the
second, for side 0, carries snapshot `[7, 0]` and the touchdown phrasing
combined with the extra-point phrasing. -/
theorem processEvents_exC9_rows :
    processEvents exC9 =
      [ { t := 0, quarter := "Q1", time := "7:30",
          text := "rushed for 5 yards", score := (0, 0), scoreType := none },
        { t := 0, quarter := "Q1", time := "3:15",
          text := "rushed for 2 yards and a touchdown! (made the extra point)",
          score := (7, 0), scoreType := some "TD" } ] := by
  decide

/-- What `genText` does to the logger state: the logs, the conversion
team and the active flag are untouched; the quarter label is updated
only by quarter/overtime events; the conversion state is marked
converted exactly by a successful resolving touchdown call. -/
theorem genText_logger (l : Logger) (ty : PlayType) (f : LogInput) :
    (genText l ty f).1.playByPlay = l.playByPlay ∧
    (genText l ty f).1.scoringSummary = l.scoringSummary ∧
    (genText l ty f).1.twoPointConversionTeam = l.twoPointConversionTeam ∧
    (genText l ty f).1.active = l.active ∧
    isErr (genText l ty f).2 = requiredMissing ty f ∧
    (genText l ty f).1.quarter =
      (match ty, f.quarter with
       | PlayType.quarter, some q => "Q" ++ toString q
       | PlayType.overtime, _ => "OT"
       | _, _ => l.quarter) ∧
    (genText l ty f).1.twoPointConversionState =
      (if resolvesTd ty f = true ∧ requiredMissing ty f = false ∧
          l.twoPointConversionState = some TPCState.attempting
       then some TPCState.converted
       else l.twoPointConversionState) := by
  obtain ⟨clock, lost, made, names, quarter, safety, t, td, touchback,
    tpc, yds⟩ := f
  cases ty <;>
    cases names <;>
    (try cases td) <;>
    (try cases quarter) <;>
    (try cases yds) <;>
    simp only [genText, requiredMissing, resolvesTd, isErr,
      updateTwoPointConversionState, Option.getD, Option.isNone] <;>
    (try split_ifs) <;>
    simp_all

theorem tprops (c : Char) {tx : String} (hc : c ∈ tx.data)
    (hno : c ∉ ("Two point conversion failed" : String).data) :
    tx ≠ "" ∧ tx ≠ "Two point conversion failed" :=
  ⟨str_ne_empty_of_mem hc, str_ne_of_mem_not_mem hc hno⟩

/-- Every text rendered by a successful `genText` call is non-empty and
differs from the synthesized conversion-failure text (each phrasing rule
inserts a fixed fragment containing a character that the failure text
does not contain). -/
theorem genText_ok_text (l : Logger) (ty : PlayType) (f : LogInput)
    (tx : String) (h : (genText l ty f).2 = Except.ok tx) :
    tx ≠ "" ∧ tx ≠ "Two point conversion failed" := by
  obtain ⟨clock, lost, made, names, quarter, safety, t, td, touchback,
    tpc, yds⟩ := f
  cases ty <;>
    cases names <;>
    (try cases td) <;>
    (try cases quarter) <;>
    (try cases yds) <;>
    simp only [genText] at h <;>
    (try split_ifs at h) <;>
    (try dsimp only at h) <;>
    first
      | exact Except.noConfusion h
      | (simp only [Except.ok.injEq] at h
         subst h
         first
           | exact ⟨by decide, by decide⟩
           | exact tprops '!' (mem_data_append_right _ (by decide)) (by decide)
           | exact tprops 'b' (mem_data_append_right _ (by decide)) (by decide)
           | exact tprops 'S' (mem_data_append_left _ (by decide)) (by decide)
           | exact tprops 'm' (mem_data_append_left _ (by decide)) (by decide)
           | exact tprops 'k' (mem_data_append_right _
               (mem_data_append_left _ (by decide))) (by decide)
           | exact tprops 'u' (mem_data_append_right _
               (mem_data_append_left _ (by decide))) (by decide)
           | exact tprops 'h' (mem_data_append_right _
               (mem_data_append_left _ (by decide))) (by decide)
           | exact tprops 'm' (mem_data_append_right _
               (mem_data_append_left _ (by decide))) (by decide)
           | exact tprops 'x' (mem_data_append_right _
               (mem_data_append_right _ (mem_data_append_right _
                 (by decide)))) (by decide)
           | exact tprops 'g' (mem_data_append_right _
               (mem_data_append_right _ (mem_data_append_right _
                 (mem_data_append_right _ (mem_data_append_right _
                   (by decide)))))) (by decide))

theorem Logger.ext' {a b : Logger}
    (h1 : a.active = b.active) (h2 : a.playByPlay = b.playByPlay)
    (h3 : a.scoringSummary = b.scoringSummary)
    (h4 : a.twoPointConversionState = b.twoPointConversionState)
    (h5 : a.twoPointConversionTeam = b.twoPointConversionTeam)
    (h6 : a.quarter = b.quarter) : a = b := by
  cases a
  cases b
  simp_all

theorem closeOrStart_pbp (l : Logger) (f : LogInput) :
    (closeOrStartConversion l f).playByPlay =
      l.playByPlay ++ failPart l f := by
  unfold closeOrStartConversion failPart
  cases f.twoPointConversionTeam
  · rfl
  · split_ifs <;> simp

theorem closeOrStart_scoring (l : Logger) (f : LogInput) :
    (closeOrStartConversion l f).scoringSummary =
      l.scoringSummary ++ failPart l f := by
  unfold closeOrStartConversion failPart
  cases f.twoPointConversionTeam
  · rfl
  · split_ifs <;> simp

theorem closeOrStart_quarter (l : Logger) (f : LogInput) :
    (closeOrStartConversion l f).quarter = l.quarter := by
  unfold closeOrStartConversion
  cases f.twoPointConversionTeam
  · rfl
  · split_ifs <;> rfl

theorem closeOrStart_active (l : Logger) (f : LogInput) :
    (closeOrStartConversion l f).active = l.active := by
  unfold closeOrStartConversion
  cases f.twoPointConversionTeam
  · rfl
  · split_ifs <;> rfl

theorem closeOrStart_untagged (l : Logger) (f : LogInput)
    (h : f.twoPointConversionTeam = none) :
    (closeOrStartConversion l f).twoPointConversionState = none ∧
    (closeOrStartConversion l f).twoPointConversionTeam = none := by
  unfold closeOrStartConversion
  rw [h]
  exact ⟨rfl, rfl⟩

theorem closeOrStart_tagged (l : Logger) (f : LogInput) (tm : Nat)
    (h : f.twoPointConversionTeam = some tm) :
    (if l.twoPointConversionState = none then
      (closeOrStartConversion l f).twoPointConversionState =
          some TPCState.attempting ∧
        (closeOrStartConversion l f).twoPointConversionTeam = some tm
     else
      (closeOrStartConversion l f).twoPointConversionState =
          l.twoPointConversionState ∧
        (closeOrStartConversion l f).twoPointConversionTeam =
          l.twoPointConversionTeam) := by
  unfold closeOrStartConversion
  rw [h]
  split_ifs with hs <;> exact ⟨rfl, rfl⟩

/-- In every outcome the fields of the result logger other than the two
logs agree with the logger returned by `genText`. -/
theorem logEvent_fst_fields (l : Logger) (ty : PlayType) (f : LogInput) :
    (logEvent l ty f).1.twoPointConversionState =
      (genText (closeOrStartConversion l f) ty f).1.twoPointConversionState ∧
    (logEvent l ty f).1.twoPointConversionTeam =
      (genText (closeOrStartConversion l f) ty f).1.twoPointConversionTeam ∧
    (logEvent l ty f).1.quarter =
      (genText (closeOrStartConversion l f) ty f).1.quarter ∧
    (logEvent l ty f).1.active =
      (genText (closeOrStartConversion l f) ty f).1.active := by
  unfold logEvent
  dsimp only
  cases hg : (genText (closeOrStartConversion l f) ty f).2 <;> dsimp only
  · exact ⟨rfl, rfl, rfl, rfl⟩
  · split_ifs <;> exact ⟨rfl, rfl, rfl, rfl⟩

theorem logEvent_ok_iff (l : Logger) (ty : PlayType) (f : LogInput) :
    (logEvent l ty f).2 = none ↔ requiredMissing ty f = false := by
  have hreq :=
    (genText_logger (closeOrStartConversion l f) ty f).2.2.2.2.1
  unfold logEvent
  dsimp only
  cases hg : (genText (closeOrStartConversion l f) ty f).2 with
  | error e =>
    rw [hg] at hreq
    simp only [isErr] at hreq
    dsimp only
    constructor
    · intro hc
      cases hc
    · intro hc
      rw [hc] at hreq
      cases hreq
  | ok tx =>
    rw [hg] at hreq
    simp only [isErr] at hreq
    have hne := (genText_ok_text _ ty f tx hg).1
    dsimp only
    rw [if_neg hne]
    simp [hreq.symm]

theorem quarterMatch_of_missing (s : String) (ty : PlayType)
    (f : LogInput) :
    requiredMissing ty f = true →
    (match ty, f.quarter with
     | PlayType.quarter, some q => "Q" ++ toString q
     | PlayType.overtime, _ => "OT"
     | _, _ => s) = s := by
  intro hreq
  cases ty <;>
    first
      | rfl
      | (cases hq : f.quarter
         · rfl
         · exact absurd hreq (by simp [requiredMissing, hq]))
      | exact absurd hreq (by simp [requiredMissing])

theorem logEvent_err_state (l : Logger) (ty : PlayType) (f : LogInput)
    (h : (logEvent l ty f).2 ≠ none) :
    (logEvent l ty f).1 = closeOrStartConversion l f := by
  have hgl := genText_logger (closeOrStartConversion l f) ty f
  obtain ⟨hp, hs, htm, ha, herr, hq, hst⟩ := hgl
  have hreq : requiredMissing ty f = true := by
    by_contra hc
    have := (logEvent_ok_iff l ty f).2 (by
      cases hr : requiredMissing ty f
      · rfl
      · exact absurd hr hc)
    exact h this
  unfold logEvent at h ⊢
  dsimp only at h ⊢
  cases hg : (genText (closeOrStartConversion l f) ty f).2 with
  | error e =>
    dsimp only
    refine Logger.ext' ha hp hs ?_ htm ?_
    · rw [hst, if_neg]
      rintro ⟨_, habs, _⟩
      rw [hreq] at habs
      cases habs
    · rw [hq]
      exact quarterMatch_of_missing _ ty f hreq
  | ok tx =>
    rw [hg] at h
    dsimp only at h
    rw [if_neg (genText_ok_text _ ty f tx hg).1] at h
    exact absurd rfl h

/-- A successful `logEvent` call appends the synthesized conversion
closure (if any) followed by exactly one narrated event of its own, and
appends to the scoring summary the closure plus its own event exactly
when the scoring condition holds. -/
theorem logEvent_ok_shape (l : Logger) (ty : PlayType) (f : LogInput)
    (h : (logEvent l ty f).2 = none) :
    ∃ own : PBPEvent,
      own.type = "text" ∧
      own.text ≠ "" ∧ own.text ≠ "Two point conversion failed" ∧
      own.t = f.t ∧ own.time = formatClock f.clock ∧
      own.quarter = (logEvent l ty f).1.quarter ∧
      (logEvent l ty f).1.playByPlay =
        l.playByPlay ++ failPart l f ++ [own] ∧
      (logEvent l ty f).1.scoringSummary =
        l.scoringSummary ++ failPart l f ++
          (if scoringCond ty f = true then [own] else []) := by
  obtain ⟨hp, hs, htm, ha, herr, hq, hst⟩ :=
    genText_logger (closeOrStartConversion l f) ty f
  unfold logEvent at h ⊢
  dsimp only at h ⊢
  cases hg : (genText (closeOrStartConversion l f) ty f).2 with
  | error e =>
    rw [hg] at h
    dsimp only at h
    cases h
  | ok tx =>
    obtain ⟨hne, hnf⟩ := genText_ok_text _ ty f tx hg
    dsimp only
    rw [if_neg hne]
    refine ⟨{ type := "text", text := tx, t := f.t,
              time := formatClock f.clock,
              quarter := (genText (closeOrStartConversion l f) ty f).1.quarter },
            rfl, hne, hnf, rfl, rfl, ?_, ?_, ?_⟩
    · split_ifs <;> rfl
    · split_ifs <;> (dsimp only; rw [hp, closeOrStart_pbp])
    · split_ifs <;> (dsimp only; rw [hs, closeOrStart_scoring]; try simp)

theorem failPart_attempting (l : Logger) (f : LogInput) (prev : PBPEvent)
    (h1 : f.twoPointConversionTeam = none)
    (h2 : l.twoPointConversionState = some TPCState.attempting)
    (h3 : l.playByPlay.getLast? = some prev) :
    failPart l f =
      [{ type := "text", text := "Two point conversion failed",
         t := l.twoPointConversionTeam, time := prev.time,
         quarter := l.quarter }] := by
  unfold failPart
  rw [h1, if_pos h2, h3]

theorem failPart_not_attempting (l : Logger) (f : LogInput)
    (h : l.twoPointConversionState ≠ some TPCState.attempting) :
    failPart l f = [] := by
  unfold failPart
  cases f.twoPointConversionTeam
  · rw [if_neg h]
  · rfl

theorem failPart_tagged (l : Logger) (f : LogInput) (tm : Nat)
    (h : f.twoPointConversionTeam = some tm) : failPart l f = [] := by
  unfold failPart
  rw [h]

theorem runLog_nil (l : Logger) : runLog [] l = (l, none) := rfl

theorem runLog_ok_split (c : PlayType × LogInput)
    (cs : List (PlayType × LogInput)) (l L : Logger)
    (h : runLog (c :: cs) l = (L, none)) :
    (logEvent l c.1 c.2).2 = none ∧
      runLog cs (logEvent l c.1 c.2).1 = (L, none) := by
  unfold runLog at h
  dsimp only at h
  cases he : (logEvent l c.1 c.2).2 with
  | some e =>
    rw [he] at h
    dsimp only at h
    exact absurd (congrArg Prod.snd h) (by simp)
  | none =>
    rw [he] at h
    exact ⟨rfl, h⟩

theorem LoggerInv_mkLogger (a : Bool) : LoggerInv (mkLogger a) := by
  constructor
  · intro h
    cases h
  · intro prev h
    cases h

theorem logEvent_state_team (l : Logger) (ty : PlayType) (f : LogInput) :
    (logEvent l ty f).1.twoPointConversionTeam =
      (closeOrStartConversion l f).twoPointConversionTeam ∧
    (logEvent l ty f).1.twoPointConversionState =
      (if resolvesTd ty f = true ∧ requiredMissing ty f = false ∧
          (closeOrStartConversion l f).twoPointConversionState =
            some TPCState.attempting
       then some TPCState.converted
       else (closeOrStartConversion l f).twoPointConversionState) := by
  obtain ⟨_, _, htm, _, _, _, hst⟩ :=
    genText_logger (closeOrStartConversion l f) ty f
  obtain ⟨f1, f2, _, _⟩ := logEvent_fst_fields l ty f
  exact ⟨f2.trans htm, f1.trans hst⟩

theorem logEvent_quarter_eq (l : Logger) (ty : PlayType) (f : LogInput) :
    (logEvent l ty f).1.quarter =
      (match ty, f.quarter with
       | PlayType.quarter, some q => "Q" ++ toString q
       | PlayType.overtime, _ => "OT"
       | _, _ => l.quarter) := by
  obtain ⟨_, _, _, _, _, hq, _⟩ :=
    genText_logger (closeOrStartConversion l f) ty f
  obtain ⟨_, _, f3, _⟩ := logEvent_fst_fields l ty f
  rw [f3, hq, closeOrStart_quarter]

theorem logEvent_active_eq (l : Logger) (ty : PlayType) (f : LogInput) :
    (logEvent l ty f).1.active = l.active := by
  obtain ⟨_, _, _, ha, _, _, _⟩ :=
    genText_logger (closeOrStartConversion l f) ty f
  obtain ⟨_, _, _, f4⟩ := logEvent_fst_fields l ty f
  rw [f4, ha, closeOrStart_active]

theorem LoggerInv_logEvent (l : Logger) (ty : PlayType) (f : LogInput)
    (hInv : LoggerInv l) (hok : (logEvent l ty f).2 = none) :
    LoggerInv (logEvent l ty f).1 := by
  obtain ⟨own, hty, hne, hnf, hT, htime, hq, hpbp, hsc⟩ :=
    logEvent_ok_shape l ty f hok
  obtain ⟨hteam, hstate⟩ := logEvent_state_team l ty f
  constructor
  · intro hatt
    have hne' : (logEvent l ty f).1.playByPlay ≠ [] := by
      rw [hpbp]
      simp
    refine ⟨?_, hne'⟩
    rw [hstate] at hatt
    split_ifs at hatt with hc
    · cases hatt
    · cases htag : f.twoPointConversionTeam with
      | none =>
        rw [(closeOrStart_untagged l f htag).1] at hatt
        cases hatt
      | some tm =>
        have h2 := closeOrStart_tagged l f tm htag
        by_cases hsn : l.twoPointConversionState = none
        · rw [if_pos hsn] at h2
          exact ⟨tm, hteam.trans h2.2⟩
        · rw [if_neg hsn] at h2
          rw [h2.1] at hatt
          obtain ⟨⟨X, hX⟩, _⟩ := hInv.1 hatt
          exact ⟨X, hteam.trans (h2.2.trans hX)⟩
  · intro prev hprev
    rw [hpbp, List.getLast?_concat] at hprev
    cases hprev
    exact hq

theorem LoggerInv_runLog (cs : List (PlayType × LogInput)) (l L : Logger)
    (h0 : LoggerInv l) (h : runLog cs l = (L, none)) : LoggerInv L := by
  induction cs generalizing l with
  | nil =>
    obtain rfl : l = L := congrArg Prod.fst h
    exact h0
  | cons c rest ih =>
    obtain ⟨hok, hrest⟩ := runLog_ok_split c rest l L h
    exact ih _ (LoggerInv_logEvent l c.1 c.2 h0 hok) hrest

theorem countP_fail_zero (r : List PBPEvent)
    (hr : ∀ ev ∈ r, ev.text ≠ "Two point conversion failed") :
    r.countP (fun e => e.text == "Two point conversion failed") = 0 := by
  rw [List.countP_eq_zero]
  intro ev hev
  simp only [beq_iff_eq]
  exact hr ev hev

theorem logEvent_err_shape (l : Logger) (ty : PlayType) (f : LogInput)
    (h : (logEvent l ty f).2 ≠ none) :
    (logEvent l ty f).1.playByPlay = l.playByPlay ++ failPart l f ∧
    (logEvent l ty f).1.scoringSummary =
      l.scoringSummary ++ failPart l f := by
  rw [logEvent_err_state l ty f h, closeOrStart_pbp, closeOrStart_scoring]
  exact ⟨rfl, rfl⟩

/-- The narration appended to each log by one call, as a suffix. -/
theorem logEvent_delta (l : Logger) (ty : PlayType) (f : LogInput) :
    ∃ rest₁ rest₂ : List PBPEvent,
      (∀ ev ∈ rest₁, ev.text ≠ "Two point conversion failed") ∧
      (∀ ev ∈ rest₂, ev.text ≠ "Two point conversion failed") ∧
      (logEvent l ty f).1.playByPlay.drop l.playByPlay.length =
        failPart l f ++ rest₁ ∧
      (logEvent l ty f).1.scoringSummary.drop l.scoringSummary.length =
        failPart l f ++ rest₂ := by
  cases hok : (logEvent l ty f).2 with
  | some e =>
    obtain ⟨h1, h2⟩ := logEvent_err_shape l ty f (by rw [hok]; simp)
    refine ⟨[], [], by simp, by simp, ?_, ?_⟩
    · rw [h1, List.drop_left, List.append_nil]
    · rw [h2, List.drop_left, List.append_nil]
  | none =>
    obtain ⟨own, _, _, hnf, _, _, _, hpbp, hsc⟩ :=
      logEvent_ok_shape l ty f hok
    refine ⟨[own], if scoringCond ty f = true then [own] else [],
      ?_, ?_, ?_, ?_⟩
    · intro ev hev
      rw [List.mem_singleton] at hev
      rw [hev]
      exact hnf
    · intro ev hev
      split_ifs at hev
      · rw [List.mem_singleton] at hev
        rw [hev]
        exact hnf
      · cases hev
    · rw [hpbp, List.append_assoc, List.drop_left]
    · rw [hsc, List.append_assoc, List.drop_left]

/-- Claim C1 (amended): an untagged call closes a pending attempt; when
the attempt is unresolved, exactly one "Two point conversion failed"
event, attributed to the attempting team and stamped with the prior
logged event's clock time and quarter, is appended to both logs; when
the attempt was resolved, no failure entry appears in either log; a
tagged touchdown call of one of the state-updating kinds (run or
completed pass without a safety, interception, fumble recovery without a
safety or touchback) marks the attempt converted and appends no entry
beyond its own. -/
theorem logEvent_two_point_closure
    (cs : List (PlayType × LogInput)) (a : Bool) (L : Logger)
    (hrun : runLog cs (mkLogger a) = (L, none))
    (ty : PlayType) (f : LogInput)
    (hf : f.twoPointConversionTeam = none) :
    ((logEvent L ty f).1.twoPointConversionState = none ∧
      (logEvent L ty f).1.twoPointConversionTeam = none) ∧
    (L.twoPointConversionState = some TPCState.attempting →
      ∃ X prev,
        L.twoPointConversionTeam = some X ∧
        L.playByPlay.getLast? = some prev ∧
        (((logEvent L ty f).1.playByPlay.drop L.playByPlay.length).head? =
            some { type := "text", text := "Two point conversion failed",
                   t := some X, time := prev.time,
                   quarter := prev.quarter } ∧
         ((logEvent L ty f).1.playByPlay.drop L.playByPlay.length).countP
            (fun e => e.text == "Two point conversion failed") = 1 ∧
         ((logEvent L ty f).1.scoringSummary.drop
            L.scoringSummary.length).head? =
            some { type := "text", text := "Two point conversion failed",
                   t := some X, time := prev.time,
                   quarter := prev.quarter } ∧
         ((logEvent L ty f).1.scoringSummary.drop
            L.scoringSummary.length).countP
            (fun e => e.text == "Two point conversion failed") = 1)) ∧
    (L.twoPointConversionState = some TPCState.converted →
      ((logEvent L ty f).1.playByPlay.drop L.playByPlay.length).countP
          (fun e => e.text == "Two point conversion failed") = 0 ∧
      ((logEvent L ty f).1.scoringSummary.drop
          L.scoringSummary.length).countP
          (fun e => e.text == "Two point conversion failed") = 0) ∧
    (∀ (ty' : PlayType) (f' : LogInput),
      L.twoPointConversionState = some TPCState.attempting →
      f'.twoPointConversionTeam = L.twoPointConversionTeam →
      resolvesTd ty' f' = true →
      (logEvent L ty' f').2 = none →
      (logEvent L ty' f').1.twoPointConversionState =
          some TPCState.converted ∧
        ((logEvent L ty' f').1.scoringSummary.drop
            L.scoringSummary.length).countP
            (fun e => e.text == "Two point conversion failed") = 0) := by
  have hInv := LoggerInv_runLog cs (mkLogger a) L (LoggerInv_mkLogger a) hrun
  refine ⟨?_, ?_, ?_, ?_⟩
  · -- closing resets the state machine
    obtain ⟨hteam, hstate⟩ := logEvent_state_team L ty f
    obtain ⟨hu1, hu2⟩ := closeOrStart_untagged L f hf
    constructor
    · rw [hstate, hu1, if_neg]
      rintro ⟨_, _, hc⟩
      cases hc
    · rw [hteam, hu2]
  · -- pending attempt: one synthesized failure event in each log
    intro hatt
    obtain ⟨⟨X, hX⟩, hne⟩ := hInv.1 hatt
    cases hlast : L.playByPlay.getLast? with
    | none => exact absurd (List.getLast?_eq_none_iff.1 hlast) hne
    | some prev =>
      have hprevq : prev.quarter = L.quarter := hInv.2 prev hlast
      have hfp : failPart L f =
          [{ type := "text", text := "Two point conversion failed",
             t := some X, time := prev.time, quarter := prev.quarter }] := by
        rw [failPart_attempting L f prev hf hatt hlast, hX, hprevq]
      obtain ⟨r1, r2, hr1, hr2, hd1, hd2⟩ := logEvent_delta L ty f
      rw [hfp] at hd1 hd2
      refine ⟨X, prev, hX, rfl, ?_, ?_, ?_, ?_⟩
      · rw [hd1]
        rfl
      · rw [hd1, List.singleton_append, List.countP_cons,
          countP_fail_zero r1 hr1]
        simp
      · rw [hd2]
        rfl
      · rw [hd2, List.singleton_append, List.countP_cons,
          countP_fail_zero r2 hr2]
        simp
  · -- resolved attempt: no failure entry
    intro hconv
    have hfp : failPart L f = [] :=
      failPart_not_attempting L f (by rw [hconv]; intro hc; cases hc)
    obtain ⟨r1, r2, hr1, hr2, hd1, hd2⟩ := logEvent_delta L ty f
    rw [hfp, List.nil_append] at hd1 hd2
    constructor
    · rw [hd1]
      exact countP_fail_zero r1 hr1
    · rw [hd2]
      exact countP_fail_zero r2 hr2
  · -- a tagged resolving touchdown marks the attempt converted
    intro ty' f' hatt htag hres hok
    obtain ⟨⟨X, hX⟩, _⟩ := hInv.1 hatt
    rw [hX] at htag
    have hfp : failPart L f' = [] := failPart_tagged L f' X htag
    obtain ⟨hteam, hstate⟩ := logEvent_state_team L ty' f'
    have h2 := closeOrStart_tagged L f' X htag
    rw [if_neg (by rw [hatt]; intro hc; cases hc)] at h2
    constructor
    · rw [hstate, if_pos]
      refine ⟨hres, ?_, by rw [h2.1, hatt]⟩
      cases hreq : requiredMissing ty' f'
      · rfl
      · exact absurd ((logEvent_ok_iff L ty' f').1 hok) (by rw [hreq]; simp)
    · obtain ⟨r1, r2, hr1, hr2, hd1, hd2⟩ := logEvent_delta L ty' f'
      rw [hfp, List.nil_append] at hd2
      rw [hd2]
      exact countP_fail_zero r2 hr2

theorem failPart_setActive (l : Logger) (b : Bool) (f : LogInput) :
    failPart { l with active := b } f = failPart l f := by
  unfold failPart
  cases f.twoPointConversionTeam <;> rfl

theorem closeOrStart_setActive (l : Logger) (b : Bool) (f : LogInput) :
    closeOrStartConversion { l with active := b } f =
      { closeOrStartConversion l f with active := b } := by
  unfold closeOrStartConversion
  cases f.twoPointConversionTeam
  · rw [failPart_setActive]
  · split_ifs <;> rfl

theorem updateTPC_setActive (l : Logger) (b : Bool) (td : Bool) :
    updateTwoPointConversionState { l with active := b } td =
      { updateTwoPointConversionState l td with active := b } := by
  unfold updateTwoPointConversionState
  split_ifs <;> rfl

theorem genText_setActive (l : Logger) (b : Bool) (ty : PlayType)
    (f : LogInput) :
    genText { l with active := b } ty f =
      ({ (genText l ty f).1 with active := b }, (genText l ty f).2) := by
  obtain ⟨clock, lost, made, names, quarter, safety, t, td, touchback,
    tpc, yds⟩ := f
  cases ty <;>
    cases names <;>
    (try cases td) <;>
    (try cases quarter) <;>
    (try cases yds) <;>
    simp only [genText, updateTPC_setActive] <;>
    (try split_ifs) <;>
    rfl

theorem logEvent_setActive (l : Logger) (b : Bool) (ty : PlayType)
    (f : LogInput) :
    (logEvent { l with active := b } ty f).1 =
        { (logEvent l ty f).1 with active := b } ∧
      (logEvent { l with active := b } ty f).2 = (logEvent l ty f).2 := by
  unfold logEvent
  dsimp only
  rw [closeOrStart_setActive, genText_setActive]
  dsimp only
  cases hg : (genText (closeOrStartConversion l f) ty f).2 <;> dsimp only
  · exact ⟨rfl, rfl⟩
  · split_ifs <;> exact ⟨rfl, rfl⟩

/-- Claim C4 (amended): `logEvent` never reads the `active` flag: its
behavior on a logger differs only by that flag being carried along, it
appends its narrated event to the narration log whether or not the
logger is active, and it appends a scoring entry whenever the scoring
condition holds, again regardless of the flag. -/
theorem logEvent_ignores_active (l : Logger) (b : Bool) (ty : PlayType)
    (f : LogInput) :
    ((logEvent { l with active := b } ty f).1 =
        { (logEvent l ty f).1 with active := b } ∧
      (logEvent { l with active := b } ty f).2 = (logEvent l ty f).2) ∧
    ((logEvent l ty f).2 = none →
      l.playByPlay.length < (logEvent l ty f).1.playByPlay.length) ∧
    ((logEvent l ty f).2 = none → scoringCond ty f = true →
      l.scoringSummary.length <
        (logEvent l ty f).1.scoringSummary.length) := by
  refine ⟨logEvent_setActive l b ty f, ?_, ?_⟩
  · intro hok
    obtain ⟨own, _, _, _, _, _, _, hpbp, _⟩ := logEvent_ok_shape l ty f hok
    rw [hpbp]
    simp
  · intro hok hcond
    obtain ⟨own, _, _, _, _, _, _, _, hsc⟩ := logEvent_ok_shape l ty f hok
    rw [hsc, if_pos hcond]
    simp

/-- Counterexample to claim C4 as stated: a logger constructed inactive
still receives a narration-log entry from `logEvent`. -/
theorem logEvent_ignores_active_counterexample :
    (mkLogger false).active = false ∧
    (logEvent (mkLogger false) PlayType.fumble
      { names := some ["Smith"] }).1.playByPlay.length = 1 := by
  exact ⟨rfl, by decide⟩

/-- Witness for C4 at a concrete call on an inactive logger. -/
theorem logEvent_ignores_active_witness :
    (logEvent { mkLogger true with active := false } PlayType.fumble
        { names := some ["Smith"] }).2 =
      (logEvent (mkLogger true) PlayType.fumble
        { names := some ["Smith"] }).2 ∧
    (mkLogger true).playByPlay.length <
      (logEvent (mkLogger true) PlayType.fumble
        { names := some ["Smith"] }).1.playByPlay.length :=
  ⟨(logEvent_ignores_active (mkLogger true) false PlayType.fumble
      { names := some ["Smith"] }).1.2,
   (logEvent_ignores_active (mkLogger true) false PlayType.fumble
      { names := some ["Smith"] }).2.1 rfl⟩

theorem scoringCond_iff (ty : PlayType) (f : LogInput) :
    scoringCond ty f = true ↔
      (f.safety = true ∨ f.td.getD false = true ∨ ty = PlayType.extraPoint ∨
        (f.made = true ∧ ty = PlayType.fieldGoal)) := by
  unfold scoringCond
  simp [Bool.or_eq_true, Bool.and_eq_true, decide_eq_true_eq]
  tauto

/-- Claim C5 (amended): a successful call appends to the scoring-summary
log its own event iff it carried a safety or touchdown flag, was an
extra-point attempt (made or missed), or was a made field goal; in
addition the synthesized failure entry of a closing two-point attempt is
appended.  In particular a missed extra point does appear in the
scoring-summary log. -/
theorem scoringSummary_append_rule (l : Logger) (ty : PlayType)
    (f : LogInput) (hok : (logEvent l ty f).2 = none) :
    ∃ own : PBPEvent,
      (logEvent l ty f).1.playByPlay =
        l.playByPlay ++ failPart l f ++ [own] ∧
      (logEvent l ty f).1.scoringSummary =
        l.scoringSummary ++ failPart l f ++
          (if f.safety = true ∨ f.td.getD false = true ∨
              ty = PlayType.extraPoint ∨
              (f.made = true ∧ ty = PlayType.fieldGoal)
           then [own] else []) := by
  obtain ⟨own, _, _, _, _, _, _, hpbp, hsc⟩ := logEvent_ok_shape l ty f hok
  refine ⟨own, hpbp, ?_⟩
  rw [hsc]
  congr 1
  rcases hcond : scoringCond ty f with hfalse | htrue
  · rw [if_neg]
    · rw [if_neg]
      intro hc
      rw [(scoringCond_iff ty f).2 hc] at hcond
      cases hcond
    · simp
  · rw [if_pos rfl, if_pos ((scoringCond_iff ty f).1 hcond)]

/-- Counterexample to claim C5 as stated: a missed extra point, which
changes no score, is appended to the scoring-summary log. -/
theorem scoringSummary_missed_xp_counterexample :
    (logEvent (mkLogger true) PlayType.extraPoint
      { names := some ["Kicker"], made := false }).1.scoringSummary =
      [{ type := "text", text := "Kicker missed the extra point",
         t := none, time := "0:00", quarter := "Q1" }] := by
  decide

/-- Witness for C5 at a concrete missed extra point. -/
theorem scoringSummary_append_rule_witness :
    ∃ own : PBPEvent,
      (logEvent (mkLogger true) PlayType.extraPoint
          { names := some ["Kicker"], made := false }).1.playByPlay =
        (mkLogger true).playByPlay ++
          failPart (mkLogger true)
            { names := some ["Kicker"], made := false } ++ [own] ∧
      (logEvent (mkLogger true) PlayType.extraPoint
          { names := some ["Kicker"], made := false }).1.scoringSummary =
        (mkLogger true).scoringSummary ++
          failPart (mkLogger true)
            { names := some ["Kicker"], made := false } ++
          (if ({ names := some ["Kicker"], made := false } : LogInput).safety
                = true ∨
              ({ names := some ["Kicker"], made := false } :
                LogInput).td.getD false = true ∨
              PlayType.extraPoint = PlayType.extraPoint ∨
              (({ names := some ["Kicker"], made := false } :
                LogInput).made = true ∧
                PlayType.extraPoint = PlayType.fieldGoal)
           then [own] else []) :=
  scoringSummary_append_rule (mkLogger true) PlayType.extraPoint
    { names := some ["Kicker"], made := false } rfl

theorem failPart_mem_t (l : Logger) (f : LogInput) (ev : PBPEvent)
    (h : ev ∈ failPart l f) : ev.t = l.twoPointConversionTeam := by
  rcases htag : f.twoPointConversionTeam with _ | tm
  · by_cases hs : l.twoPointConversionState = some TPCState.attempting
    · rcases hl : l.playByPlay.getLast? with _ | prev
      · have hnil : failPart l f = [] := by
          unfold failPart
          rw [htag, if_pos hs, hl]
        rw [hnil] at h
        cases h
      · rw [failPart_attempting l f prev htag hs hl,
          List.mem_singleton] at h
        rw [h]
    · rw [failPart_not_attempting l f hs] at h
      cases h
  · rw [failPart_tagged l f tm htag] at h
    cases h

/-- Claim C6 (amended): a conversion tag arriving while an attempt is
already pending is ignored: the recorded team is unchanged and the
attempt stays pending (or becomes converted through its own touchdown
path), so that a later untagged closing call attributes any synthesized
failure entry to the original team, not to the new tag's team. -/
theorem overlapping_tag_keeps_attempt (l : Logger) (ty : PlayType)
    (f : LogInput) (y : Nat)
    (hatt : l.twoPointConversionState = some TPCState.attempting)
    (htag : f.twoPointConversionTeam = some y) :
    (logEvent l ty f).1.twoPointConversionTeam =
        l.twoPointConversionTeam ∧
    ((logEvent l ty f).1.twoPointConversionState =
        some TPCState.attempting ∨
      (logEvent l ty f).1.twoPointConversionState =
        some TPCState.converted) ∧
    (∀ (ty₂ : PlayType) (f₂ : LogInput),
      f₂.twoPointConversionTeam = none →
      ∀ ev ∈ (logEvent (logEvent l ty f).1 ty₂ f₂).1.playByPlay.drop
          (logEvent l ty f).1.playByPlay.length,
        ev.text = "Two point conversion failed" →
          ev.t = l.twoPointConversionTeam) := by
  have h2 := closeOrStart_tagged l f y htag
  rw [if_neg (by rw [hatt]; intro hc; cases hc)] at h2
  obtain ⟨hteam, hstate⟩ := logEvent_state_team l ty f
  have hteam' : (logEvent l ty f).1.twoPointConversionTeam =
      l.twoPointConversionTeam := hteam.trans h2.2
  refine ⟨hteam', ?_, ?_⟩
  · rw [hstate, h2.1, hatt]
    split_ifs
    · exact Or.inr rfl
    · exact Or.inl rfl
  · intro ty₂ f₂ _ ev hev htext
    obtain ⟨r1, r2, hr1, hr2, hd1, hd2⟩ :=
      logEvent_delta (logEvent l ty f).1 ty₂ f₂
    rw [hd1, List.mem_append] at hev
    rcases hev with hev | hev
    · rw [failPart_mem_t _ _ _ hev]
      exact hteam'
    · exact absurd htext (hr1 ev hev)

/-- Counterexample to claim C6 as stated: after an overlapping tag by
team 1, the synthesized failure entry is attributed to team 0 (the
original attempt), not to team 1. -/
theorem overlapping_tag_counterexample :
    ((exC6[1]?).map (fun c => c.2.twoPointConversionTeam) =
      some (some 1)) ∧
    (runLog exC6 (mkLogger true)).2 = none ∧
    (runLog exC6 (mkLogger true)).1.playByPlay.countP
      (fun e => e.text == "Two point conversion failed" &&
        e.t == some 1) = 0 ∧
    (runLog exC6 (mkLogger true)).1.playByPlay.countP
      (fun e => e.text == "Two point conversion failed" &&
        e.t == some 0) = 1 := by
  refine ⟨rfl, rfl, ?_, ?_⟩ <;> decide

/-- Witness for C6: a tagged call by team 1 while team 0's attempt is
pending keeps the recorded team. -/
theorem overlapping_tag_keeps_attempt_witness :
    (logEvent exC6L PlayType.run
        { clock := 10, names := some ["Beta"], td := some false,
          yds := some 1, t := some 1,
          twoPointConversionTeam := some 1 }).1.twoPointConversionTeam =
      exC6L.twoPointConversionTeam :=
  (overlapping_tag_keeps_attempt exC6L PlayType.run
    { clock := 10, names := some ["Beta"], td := some false,
      yds := some 1, t := some 1, twoPointConversionTeam := some 1 }
    1 rfl rfl).1

/-- Claim C7 (amended): `logEvent` throws iff a required field for the
given event type is missing; on a failing call the call's own event is
not appended to either log, though the synthesized closure of a pending
two-point attempt, performed at the start of the call, still is; and a
non-failing call appends exactly one event of its own, with non-empty
text, after that possible synthesized entry. -/
theorem logEvent_error_contract (l : Logger) (ty : PlayType)
    (f : LogInput) :
    ((logEvent l ty f).2 ≠ none ↔ requiredMissing ty f = true) ∧
    ((logEvent l ty f).2 ≠ none →
      (logEvent l ty f).1.playByPlay = l.playByPlay ++ failPart l f ∧
      (logEvent l ty f).1.scoringSummary =
        l.scoringSummary ++ failPart l f) ∧
    ((logEvent l ty f).2 = none →
      ∃ own : PBPEvent, own.text ≠ "" ∧
        (logEvent l ty f).1.playByPlay =
          l.playByPlay ++ failPart l f ++ [own] ∧
        (logEvent l ty f).1.scoringSummary =
          l.scoringSummary ++ failPart l f ++
            (if scoringCond ty f = true then [own] else [])) := by
  refine ⟨?_, logEvent_err_shape l ty f, ?_⟩
  · constructor
    · intro h
      cases hr : requiredMissing ty f
      · exact absurd ((logEvent_ok_iff l ty f).2 hr) h
      · rfl
    · intro h hc
      have hr := (logEvent_ok_iff l ty f).1 hc
      rw [h] at hr
      cases hr
  · intro hok
    obtain ⟨own, _, hne, _, _, _, _, hpbp, hsc⟩ :=
      logEvent_ok_shape l ty f hok
    exact ⟨own, hne, hpbp, hsc⟩

/-- Counterexample to claim C7 as stated: a failing call (injury with no
names) does append to both logs: the synthesized "Two point conversion
failed" entry that closes the pending attempt is pushed before the
throw. -/
theorem logEvent_error_contract_counterexample :
    (logEvent exC7L PlayType.injury { clock := 9 }).2 =
      some "Missing names" ∧
    (logEvent exC7L PlayType.injury { clock := 9 }).1.playByPlay.length =
      exC7L.playByPlay.length + 1 ∧
    (logEvent exC7L PlayType.injury
        { clock := 9 }).1.scoringSummary.length =
      exC7L.scoringSummary.length + 1 := by
  refine ⟨?_, ?_, ?_⟩ <;> decide

/-- Witness for C7 at a concrete failing and a concrete succeeding
call. -/
theorem logEvent_error_contract_witness :
    (logEvent (mkLogger true) PlayType.injury { clock := 0 }).2 ≠ none ∧
    (logEvent (mkLogger true) PlayType.injury
        { clock := 0 }).1.playByPlay =
      (mkLogger true).playByPlay ++
        failPart (mkLogger true) { clock := 0 } ∧
    (∃ own : PBPEvent, own.text ≠ "" ∧
      (logEvent (mkLogger true) PlayType.overtime
          { clock := 0 }).1.playByPlay =
        (mkLogger true).playByPlay ++
          failPart (mkLogger true) { clock := 0 } ++ [own] ∧
      (logEvent (mkLogger true) PlayType.overtime
          { clock := 0 }).1.scoringSummary =
        (mkLogger true).scoringSummary ++
          failPart (mkLogger true) { clock := 0 } ++
          (if scoringCond PlayType.overtime { clock := 0 } = true
           then [own] else [])) :=
  ⟨(logEvent_error_contract (mkLogger true) PlayType.injury
      { clock := 0 }).1.mpr rfl,
   ((logEvent_error_contract (mkLogger true) PlayType.injury
      { clock := 0 }).2.1
     ((logEvent_error_contract (mkLogger true) PlayType.injury
        { clock := 0 }).1.mpr rfl)).1,
   (logEvent_error_contract (mkLogger true) PlayType.overtime
      { clock := 0 }).2.2 rfl⟩

/-- Witness for C1: closing the concrete pending attempt resets the
state machine and synthesizes exactly one failure entry in each log. -/
theorem logEvent_two_point_closure_witness :
    ((logEvent exC1L PlayType.dropback exC1f).1.twoPointConversionState =
        none ∧
      (logEvent exC1L PlayType.dropback
        exC1f).1.twoPointConversionTeam = none) ∧
    (∃ X prev,
      exC1L.twoPointConversionTeam = some X ∧
      exC1L.playByPlay.getLast? = some prev ∧
      (((logEvent exC1L PlayType.dropback exC1f).1.playByPlay.drop
          exC1L.playByPlay.length).head? =
          some { type := "text", text := "Two point conversion failed",
                 t := some X, time := prev.time,
                 quarter := prev.quarter } ∧
       ((logEvent exC1L PlayType.dropback exC1f).1.playByPlay.drop
          exC1L.playByPlay.length).countP
          (fun e => e.text == "Two point conversion failed") = 1 ∧
       ((logEvent exC1L PlayType.dropback exC1f).1.scoringSummary.drop
          exC1L.scoringSummary.length).head? =
          some { type := "text", text := "Two point conversion failed",
                 t := some X, time := prev.time,
                 quarter := prev.quarter } ∧
       ((logEvent exC1L PlayType.dropback exC1f).1.scoringSummary.drop
          exC1L.scoringSummary.length).countP
          (fun e => e.text == "Two point conversion failed") = 1)) :=
  ⟨(logEvent_two_point_closure exC1calls true exC1L rfl
      PlayType.dropback exC1f rfl).1,
   (logEvent_two_point_closure exC1calls true exC1L rfl
      PlayType.dropback exC1f rfl).2.1 rfl⟩

/-- Counterexample to claim C1 as stated: the first event of the attempt
carries team 0's conversion tag and a true touchdown flag, yet the
failure entry is still synthesized, because a punt return never updates
the conversion state. -/
theorem logEvent_two_point_closure_counterexample :
    ((exC1cx[0]?).map
        (fun c => (c.2.twoPointConversionTeam, c.2.td)) =
      some (some 0, some true)) ∧
    (runLog exC1cx (mkLogger true)).2 = none ∧
    (runLog exC1cx (mkLogger true)).1.playByPlay.countP
      (fun e => e.text == "Two point conversion failed") = 1 := by
  refine ⟨rfl, rfl, ?_⟩
  decide

end GmGames
